import Mathlib

/-!
Verification development for the northstar container runtime core.

Shallow embedding of the parts of the source relevant to the checked
properties:

* `src/northstar/src/runtime/repository.rs` — `Repository::new`,
  `Repository::add`, `Repository::remove`;
* `src/northstar/src/runtime/console.rs` — handshake timeout wiring,
  `process_request` (permission gate and the `Install` branch);
* `src/northstar/src/runtime/fork/init/builder.rs` — the mount planner
  (`prepare_mounts`, `bind`, `persist`, `proc`, `resource`, `tmpfs`,
  `options_to_flags`);
* `src/north_common/src/manifest.rs` — `Manifest::from_path` /
  `FromStr::from_str` post-parse validation.

Filesystems are modelled as association lists from path strings to
content identifiers (`Nat`); the external npk parser/verifier library is
a parameter (`parse : Nat → Option Container`), matching the spec's
statement that the package parser is an external collaborator.
-/

namespace Northstar

/-- Container identity, a `(name, version)` pair with componentwise
equality (`src/northstar/src/runtime/repository.rs` uses
`Container::new(name, version)`). Versions are kept as strings; none of
the checked claims needs version ordering. -/
structure Container where
  name : String
  version : String
deriving DecidableEq, Repr

/-- A filesystem directory content: association list from path to an
abstract file-content identifier. -/
abbrev FileSystem := List (String × Nat)

/-- Lookup in an association list (first match). -/
def lookupAL {α β : Type} [DecidableEq α] : List (α × β) → α → Option β
  | [], _ => none
  | (a, b) :: t, k => if a = k then some b else lookupAL t k

/-- Insert with replacement, mirroring `HashMap::insert`: if the key is
present its value is replaced in place, otherwise the pair is appended. -/
def insertAL {α β : Type} [DecidableEq α] (k : α) (v : β) : List (α × β) → List (α × β)
  | [] => [(k, v)]
  | (a, b) :: t => if a = k then (k, v) :: t else (a, b) :: insertAL k v t

/-- Erase a key, mirroring `HashMap::remove` (first occurrence). -/
def eraseAL {α β : Type} [DecidableEq α] (k : α) : List (α × β) → List (α × β)
  | [] => []
  | (a, b) :: t => if a = k then t else (a, b) :: eraseAL k t

/-- Errors of the repository operations (`super::error::Error` variants
used in `repository.rs`). -/
inductive RepoError where
  | installDuplicate (c : Container)
  | npk (path : String)
  | ioError (context : String)
  | invalidContainer (c : Container)
deriving DecidableEq, Repr

/-- The repository record of `repository.rs`: id, directory and the map
from container identity to `(path, Npk)`. The `Npk` handle is abstracted
to the content identifier the parser was run on. -/
structure Repository where
  id : String
  dir : String
  containers : List (Container × (String × Nat))
deriving DecidableEq, Repr

/-- Destination path built by `Repository::add`:
`self.dir.join(format!("\x7b\x7d-\x7b\x7d.npk", container.name(), container.version()))`. -/
def addDest (dir : String) (c : Container) : String :=
  dir ++ "/" ++ c.name ++ "-" ++ c.version ++ ".npk"

/-- Shallow embedding of `Repository::add` (repository.rs lines 116-141).
`parse` stands for the external `Npk::from_path` parse-and-verify
(`none` = parse/verification failure, `some c` = success with manifest
identity `c`); `src` is the content of the source file.  Steps exactly as
in the source: duplicate check on the destination path, copy, parse of
the copied file, and insertion keyed by the identity read from the copied
package's own manifest.  On parse failure the copied file is NOT removed
(the source returns the error with `?` and performs no cleanup). -/
def Repository.add (parse : Nat → Option Container) (fs : FileSystem)
    (repo : Repository) (container : Container) (src : Nat) :
    FileSystem × Repository × Except RepoError Unit :=
  let dest := addDest repo.dir container
  if (lookupAL fs dest).isSome then
    (fs, repo, Except.error (RepoError.installDuplicate container))
  else
    let fs' := insertAL dest src fs
    match parse src with
    | none => (fs', repo, Except.error (RepoError.npk dest))
    | some c =>
        (fs', { repo with containers := insertAL c (dest, src) repo.containers },
          Except.ok ())

/-- Shallow embedding of `Repository::remove` (repository.rs lines
143-153).  The source first removes the map entry
(`self.containers.remove(&container)`) and only then deletes the backing
file; a file-deletion failure is surfaced as an `Io` error with the map
entry already gone.  An absent identity yields `InvalidContainer` with
nothing touched.  `fs::remove_file` failure is modelled as the path being
absent from the filesystem. -/
def Repository.remove (fs : FileSystem) (repo : Repository) (container : Container) :
    FileSystem × Repository × Except RepoError Unit :=
  match lookupAL repo.containers container with
  | some (path, _) =>
      let repo' := { repo with containers := eraseAL container repo.containers }
      if (lookupAL fs path).isSome then
        (eraseAL path fs, repo', Except.ok ())
      else
        (fs, repo', Except.error (RepoError.ioError "Failed to remove npk"))
  | none => (fs, repo, Except.error (RepoError.invalidContainer container))

/-- One scan result of `Repository::new` (repository.rs lines 63-97): a
load task either succeeds with `(container, file, npk)` or fails (the
failure is only logged).  Results are processed in directory-iteration
order (`read_dir` order; `join_all` preserves the order the tasks were
spawned in). -/
abbrev ScanResult := Except Unit (Container × String × Nat)

/-- Fold step of the result loop of `Repository::new`: successful loads
are inserted with `HashMap::insert` (replacing any earlier entry with the
same identity); failures are skipped. -/
def scanInsert (acc : List (Container × (String × Nat))) (r : ScanResult) :
    List (Container × (String × Nat)) :=
  match r with
  | Except.ok (c, p, n) => insertAL c (p, n) acc
  | Except.error _ => acc

/-- Shallow embedding of the container-map construction of
`Repository::new`: fold the scan results in scan order into the map. -/
def repositoryScan (results : List ScanResult) : List (Container × (String × Nat)) :=
  results.foldl scanInsert []

/-! Console embedding (`src/northstar/src/runtime/console.rs`). -/

/-- Console permissions. The `Permission` enum lives in
`crate::npk::manifest::console`, which is not under `src/`; its variants
are exactly the ones used by `console.rs` (the `required_permission`
match and the `Notifications` check). -/
inductive Permission where
  | containerStatistics
  | containers
  | ident
  | install
  | kill
  | mount
  | notifications
  | repositories
  | shutdown
  | start
  | token
  | umount
  | uninstall
deriving DecidableEq, Repr

/-- Console requests as matched by `process_request` in `console.rs`
(variant set of `model::Request`; payloads reduced to the components the
console code inspects). -/
inductive Request where
  | containerStats (c : Container)
  | containers
  | ident
  | install (repository : String) (size : Nat)
  | kill (c : Container) (signal : Nat)
  | mount (cs : List Container)
  | repositories
  | shutdown
  | start (c : Container)
  | tokenCreate
  | tokenVerify
  | umount (cs : List Container)
  | uninstall (c : Container)
deriving DecidableEq, Repr

/-- Console listener configuration as used by `console.rs`. The
`Configuration` type itself lives in `crate::npk::manifest::console`
(not under `src/`); these are precisely the fields `console.rs` reads:
`permissions`, `max_request_size`, `max_requests_per_sec`,
`max_npk_install_size` and `npk_stream_timeout`.  There is no field for
a handshake timeout. -/
structure Configuration where
  permissions : List Permission
  max_request_size : Option Nat
  max_requests_per_sec : Option Nat
  max_npk_install_size : Option Nat
  npk_stream_timeout : Option Nat
deriving DecidableEq, Repr

/-- Constant `DEFAULT_REQUESTS_PER_SECOND` of console.rs. -/
def DEFAULT_REQUESTS_PER_SECOND : Nat := 1024

/-- Constant `DEFAULT_MAX_REQUEST_SIZE` of console.rs. -/
def DEFAULT_MAX_REQUEST_SIZE : Nat := 1024 * 1024

/-- Constant `DEFAULT_MAX_INSTALL_STREAM_SIZE` of console.rs. -/
def DEFAULT_MAX_INSTALL_STREAM_SIZE : Nat := 256 * 1000000

/-- Constant `DEFAULT_NPK_STREAM_TIMEOUT` of console.rs: timeout in seconds
between two npk stream chunks. -/
def DEFAULT_NPK_STREAM_TIMEOUT : Nat := 5

/-- Value of `u64::MAX`. -/
def u64Max : Nat := 2 ^ 64 - 1

/-- Effective timeout (in seconds) applied to the wait for the `Connect`
frame by `Console::connection` (console.rs line 183):
`timeout.unwrap_or_else(|| time::Duration::from_secs(u64::MAX))`. -/
def connectionHandshakeTimeout (timeout : Option Nat) : Nat :=
  timeout.getD u64Max

/-- The timeout argument `serve` passes to `Console::connection` for
every accepted connection (console.rs line 580):
`Some(time::Duration::from_secs(10))`, a hardcoded constant. -/
def serveConnectionTimeoutArg : Option Nat :=
  some 10

/-- Per-chunk npk stream timeout (seconds) as computed in the `Install`
branch of `process_request` (console.rs lines 429-433):
`configuration.npk_stream_timeout.unwrap_or(DEFAULT_NPK_STREAM_TIMEOUT)`. -/
def npkStreamTimeout (cfg : Configuration) : Nat :=
  cfg.npk_stream_timeout.getD DEFAULT_NPK_STREAM_TIMEOUT

/-- The permission required for each request variant — the
`required_permission` match of `process_request` (console.rs lines
351-365). -/
def requiredPermission : Request → Permission
  | Request.containerStats _ => Permission.containerStatistics
  | Request.containers => Permission.containers
  | Request.ident => Permission.ident
  | Request.install _ _ => Permission.install
  | Request.kill _ _ => Permission.kill
  | Request.mount _ => Permission.mount
  | Request.repositories => Permission.repositories
  | Request.shutdown => Permission.shutdown
  | Request.start _ => Permission.start
  | Request.tokenCreate => Permission.token
  | Request.tokenVerify => Permission.token
  | Request.umount _ => Permission.umount
  | Request.uninstall _ => Permission.uninstall

/-- Outcome of `process_request` at the granularity the checked claims
need: an early permission-denied response (carrying the held permission
set and the required permission), a locally produced reply
(`Ident`/`TokenCreate`/`TokenVerify` never contact the event loop), an
early error, or a request forwarded to the event loop. -/
inductive ProcessOutcome where
  | permissionDenied (held : List Permission) (required : Permission)
  | repliedLocally
  | errored
  | forwardedToEventLoop
deriving DecidableEq, Repr

/-- Shallow embedding of the dispatch structure of `process_request`
(console.rs lines 338-495).  Returns the outcome together with the list
of requests sent to the event loop as `Event::Console`.  The permission
gate runs first and returns `Response::Error(PermissionDenied)` without
any event-loop interaction; `Ident`, `TokenCreate` and `TokenVerify` are
answered locally; `Install` first checks the size limit (before creating
the byte channel and sending the event); every other request is
forwarded. -/
def processRequest (cfg : Configuration) (req : Request) :
    ProcessOutcome × List Request :=
  if requiredPermission req ∈ cfg.permissions then
    match req with
    | Request.ident => (ProcessOutcome.repliedLocally, [])
    | Request.install repository size =>
        if size > cfg.max_npk_install_size.getD DEFAULT_MAX_INSTALL_STREAM_SIZE then
          (ProcessOutcome.errored, [])
        else
          (ProcessOutcome.forwardedToEventLoop, [Request.install repository size])
    | Request.tokenCreate => (ProcessOutcome.repliedLocally, [])
    | Request.tokenVerify => (ProcessOutcome.repliedLocally, [])
    | r => (ProcessOutcome.forwardedToEventLoop, [r])
  else
    (ProcessOutcome.permissionDenied cfg.permissions (requiredPermission req), [])

/-- Errors of the install streaming path of `process_request`. The
`assertionViolation` constructor models the panic of
`assert!(read_buffer.len() as u64 <= size)` (console.rs line 421). -/
inductive InstallStreamError where
  | sizeTooLarge
  | assertionViolation
deriving DecidableEq, Repr

/-- Shallow embedding of the prefetched-bytes handling of the `Install`
branch (console.rs lines 414-425): if the codec's read buffer is
nonempty its contents are split off, asserted to be at most `size`
bytes, subtracted from `size` and pushed onto the byte channel first.
Returns the remaining size together with the chunks pushed so far. -/
def installHandlePrefetch (readBuffer : List Nat) (size : Nat) :
    Except InstallStreamError (Nat × List (List Nat)) :=
  if readBuffer.isEmpty then
    Except.ok (size, [])
  else if readBuffer.length ≤ size then
    Except.ok (size - readBuffer.length, [readBuffer])
  else
    Except.error InstallStreamError.assertionViolation

/-- The `Install` branch of `process_request` up to and including the
prefetch handling (console.rs lines 387-425): size check against
`max_npk_install_size` (default `DEFAULT_MAX_INSTALL_STREAM_SIZE`), then
the prefetched-bytes handling.  `readBuffer` is whatever bytes the
framing codec pulled into the connection's read buffer beyond the
request frame; nothing in the connection setup bounds it by `size` (the
codec is configured only with `max_request_size`). -/
def installStream (cfg : Configuration) (size : Nat) (readBuffer : List Nat) :
    Except InstallStreamError (Nat × List (List Nat)) :=
  if size > cfg.max_npk_install_size.getD DEFAULT_MAX_INSTALL_STREAM_SIZE then
    Except.error InstallStreamError.sizeTooLarge
  else
    installHandlePrefetch readBuffer size

/-! North-common manifest embedding (`src/north_common/src/manifest.rs`). -/

/-- Type `OnExit` of north_common manifest.rs: restart policy. -/
inductive OnExit where
  | restart (n : Nat)
deriving DecidableEq, Repr

/-- The north_common `Manifest` (manifest.rs lines 127-154), with the
fields the checked claim inspects plus the scalar fields; `cgroups`,
`seccomp` and `log` carry no information relevant to the on-exit
validation and are omitted. -/
structure NCManifest where
  name : String
  version : String
  arch : String
  init : String
  args : Option (List String)
  env : Option (List (String × String))
  autostart : Option Bool
  on_exit : Option OnExit
  instances : Option Nat
deriving DecidableEq, Repr

/-- Post-parse validation performed by `Manifest::from_path`
(manifest.rs lines 156-173).  The serde-yaml decode is external library
code and is abstracted as the already-decoded manifest `m` (note that
`on_exit: \x7b restart: 0 \x7d` decodes successfully to `Restart(0)`, since
the payload is a plain `u32`).  `from_path` then rejects
`Some(OnExit::Restart(0))`. -/
def manifestFromPathCheck (m : NCManifest) : Except String NCManifest :=
  match m.on_exit with
  | some (OnExit.restart 0) => Except.error "Invalid on_exit value"
  | _ => Except.ok m

/-- Post-parse validation performed by `FromStr::from_str` for
`Manifest` (manifest.rs lines 175-180): there is none — the function is
`serde_yaml::from_str(s).context(..)` and returns whatever decoded. -/
def manifestFromStrCheck (m : NCManifest) : Except String NCManifest :=
  Except.ok m

/-! Mount planner embedding (`src/northstar/src/runtime/fork/init/builder.rs`).
Paths are modelled as strings with `/`-separated components. -/

/-- Linux mount flag set (the subset of `nix::mount::MsFlags` used by
builder.rs), represented by one boolean per flag. -/
structure MsFlags where
  rdonly : Bool := false
  nosuid : Bool := false
  nodev : Bool := false
  noexec : Bool := false
  bind : Bool := false
  remount : Bool := false
  recursive : Bool := false
deriving DecidableEq, Repr

/-- Empty flag set (`MsFlags::empty()`). -/
def MsFlags.empty : MsFlags := {}

/-- Union of flag sets (bitwise or; both `|` and `flags.set(f, true)` in
the source). -/
def MsFlags.union (a b : MsFlags) : MsFlags :=
  ⟨a.rdonly || b.rdonly, a.nosuid || b.nosuid, a.nodev || b.nodev,
    a.noexec || b.noexec, a.bind || b.bind, a.remount || b.remount,
    a.recursive || b.recursive⟩

/-- Flag `MS_RDONLY`. -/
def msRdonly : MsFlags := { rdonly := true }

/-- Flag `MS_NOSUID`. -/
def msNosuid : MsFlags := { nosuid := true }

/-- Flag `MS_NODEV`. -/
def msNodev : MsFlags := { nodev := true }

/-- Flag `MS_NOEXEC`. -/
def msNoexec : MsFlags := { noexec := true }

/-- Flag `MS_BIND`. -/
def msBind : MsFlags := { bind := true }

/-- Flag `MS_REMOUNT`. -/
def msRemount : MsFlags := { remount := true }

/-- Flag `MS_REC` (named `recursive` here because `rec` is reserved). -/
def msRec : MsFlags := { recursive := true }

/-- Mount options of a manifest mount entry
(`crate::npk::manifest::mount::MountOption`; the type is not under
`src/`, its variants are the ones matched by `options_to_flags` in
builder.rs: `Rw`, `NoExec`, `NoSuid`, `NoDev`, `Rec`). -/
inductive MountOption where
  | Rw
  | NoExec
  | NoSuid
  | NoDev
  | Rec
deriving DecidableEq, Repr

/-- Embedding of `options_to_flags` (builder.rs lines 306-318): fold the
options into a flag set; `Rw` contributes nothing. -/
def options_to_flags (opts : List MountOption) : MsFlags :=
  opts.foldl
    (fun flags o =>
      match o with
      | MountOption.Rw => flags
      | MountOption.NoExec => flags.union msNoexec
      | MountOption.NoSuid => flags.union msNosuid
      | MountOption.NoDev => flags.union msNodev
      | MountOption.Rec => flags.union msRec)
    MsFlags.empty

/-- A mount record, `Mount::new(source, target, fstype, flags, data)`. -/
structure Mount where
  source : Option String
  target : String
  fstype : Option String
  flags : MsFlags
  data : Option String
deriving DecidableEq, Repr

/-- Embedding of `Path::strip_prefix("/")` on string paths: succeeds
with the remainder when the path is absolute. -/
def stripLeadingSlash (p : String) : Option String :=
  match p.data with
  | '/' :: rest => some (String.mk rest)
  | _ => none

/-- Join of a base path with a relative path. -/
def joinPath (a b : String) : String := a ++ "/" ++ b

/-- Embedding of `PathExt::join_strip` (builder.rs lines 320-327): join
the target under `root` after stripping a leading `/`. -/
def joinStrip (root w : String) : String :=
  match stripLeadingSlash w with
  | some stripped => joinPath root stripped
  | none => joinPath root w

/-- Global config fields read by the mount planner
(`config.run_dir`, `config.data_dir`). -/
structure Config where
  run_dir : String
  data_dir : String
deriving DecidableEq, Repr

/-- Mount kinds of a manifest entry
(`crate::npk::manifest::mount::Mount`; the type is not under `src/`, its
variants are the ones matched by `prepare_mounts` in builder.rs). -/
inductive MountDecl where
  | Bind (host : String) (options : List MountOption)
  | Persist
  | Proc
  | Resource (name : String) (version : String) (dir : String) (options : List MountOption)
  | Tmpfs (size : Nat)
  | Dev
deriving DecidableEq, Repr

/-- Manifest fields read by the mount planner: identity, uid/gid and the
mount entries.  Modelled from the spec: the manifest type is
`crate::npk::manifest::Manifest`, which is not under `src/`; per spec
section 4.4 the mounts are a mapping from target path to mount kind
iterated in the manifest's declared order, modelled as an ordered
association list. -/
structure BuilderManifest where
  name : String
  version : String
  uid : Nat
  gid : Nat
  mounts : List (String × MountDecl)
deriving DecidableEq, Repr

/-- Planner errors: `StartContainerMissingResource` from `resource`
(builder.rs lines 265-271) and the panic of the
`.expect("failed to locate required resource container")` on a failed
dependency lookup (builder.rs line 117). -/
inductive BuildError where
  | startContainerMissingResource (c : Container) (name : String) (version : String)
  | resourceNotFound
deriving DecidableEq, Repr

/-- Modelled from the spec: `State::match_container`
(`src/northstar/src/runtime/state.rs` is not under `src/`).  Spec
section 4.3: the planner scans the installed containers for an identity
whose name matches the requirement and whose version satisfies the
requirement's constraint, picking the highest version among matches;
following spec design note 1, the constraint is exact version match, so
all matches carry the same version and the first is returned. -/
def match_container (name version : String) (containers : List Container) :
    Option Container :=
  (containers.filter (fun c => c.name == name && c.version == version)).head?

/-- Embedding of `bind` (builder.rs lines 150-200).  `fs` is the host
filesystem existence oracle (`host.exists()`).  If the host path does
not exist, nothing is emitted.  Otherwise one bind mount with
`options_to_flags(options) | MS_BIND` is emitted, followed — when `Rw`
is absent — by a remount record with identical source and target whose
flags additionally set `MS_REMOUNT` and `MS_RDONLY`. -/
def bindMount (fs : String → Bool) (root target host : String)
    (options : List MountOption) : List Mount :=
  if fs host then
    let rw := MountOption.Rw ∈ options
    let source := host
    let tgt := joinStrip root target
    let flags := (options_to_flags options).union msBind
    let m := Mount.mk (some source) tgt none flags none
    if rw then
      [m]
    else
      [m, Mount.mk (some source) tgt none ((flags.union msRemount).union msRdonly) none]
  else
    []

/-- Embedding of `persist` (builder.rs lines 202-244): a single bind
mount of `source` with flags `MS_BIND | MS_NODEV | MS_NOSUID |
MS_NOEXEC`.  The `create_dir_all`/`chown` side effects (and their I/O
failure paths) are not modelled; `uid`/`gid` are kept to mirror the
source signature and are used only by `chown`. -/
def persistMount (root source target : String) (_uid _gid : Nat) : Mount :=
  Mount.mk (some source) (joinStrip root target) none
    (((msBind.union msNodev).union msNosuid).union msNoexec) none

/-- Embedding of `proc` (builder.rs lines 138-148): fstype `proc`,
source `proc`, flags `MS_RDONLY | MS_NOSUID | MS_NOEXEC | MS_NODEV`. -/
def procMount (root target : String) : Mount :=
  Mount.mk (some "proc") (joinStrip root target) (some "proc")
    (((msRdonly.union msNosuid).union msNoexec).union msNodev) none

/-- Source path computed by `resource` (builder.rs lines 255-264):
`run_dir/\x7bdep_name\x7d:\x7bdep_version\x7d` joined with `dir` stripped of its
leading `/`; when `dir` is not absolute, `strip_prefix` fails and the
resource root alone is used (`unwrap_or(resource_root)`). -/
def resourceSrcPath (cfg : Config) (dep : Container) (dir : String) : String :=
  let resourceRoot := cfg.run_dir ++ "/" ++ dep.name ++ ":" ++ dep.version
  match stripLeadingSlash dir with
  | some d => joinPath resourceRoot d
  | none => resourceRoot

/-- Embedding of `resource` (builder.rs lines 246-291): fails with
`StartContainerMissingResource` when the computed source does not exist;
otherwise emits a bind mount with
`options_to_flags(options) | MS_RDONLY | MS_BIND` and a remount record
that additionally sets `MS_REMOUNT`. -/
def resourceMount (fs : String → Bool) (root target : String) (cfg : Config)
    (container dep : Container) (dir : String) (options : List MountOption) :
    Except BuildError (Mount × Mount) :=
  let src := resourceSrcPath cfg dep dir
  if fs src then
    let tgt := joinStrip root target
    let flags := (options_to_flags options).union (msRdonly.union msBind)
    let m := Mount.mk (some src) tgt none flags none
    let remountRo := Mount.mk (some src) tgt none (flags.union msRemount) none
    Except.ok (m, remountRo)
  else
    Except.error
      (BuildError.startContainerMissingResource container dep.name dep.version)

/-- Embedding of `tmpfs` (builder.rs lines 293-304): fstype `tmpfs`,
flags `MS_NODEV | MS_NOSUID | MS_NOEXEC`, data
`size=<bytes>,mode=1777`. -/
def tmpfsMount (root target : String) (size : Nat) : Mount :=
  Mount.mk none (joinStrip root target) (some "tmpfs")
    ((msNodev.union msNosuid).union msNoexec)
    (some ("size=" ++ toString size ++ ",mode=1777"))

/-- Recursion of `prepare_mounts` over the manifest's mount entries in
declared order (builder.rs lines 89-136).  Each entry contributes its
mount records in order; the first error aborts the plan. -/
def prepareMountsList (fs : String → Bool) (cfg : Config) (root : String)
    (man : BuilderManifest) (containers : List Container) :
    List (String × MountDecl) → Except BuildError (List Mount)
  | [] => Except.ok []
  | (target, decl) :: rest => do
      let hd ←
        match decl with
        | MountDecl.Bind host options =>
            Except.ok (bindMount fs root target host options)
        | MountDecl.Persist =>
            Except.ok
              [persistMount root (cfg.data_dir ++ "/" ++ man.name) target man.uid man.gid]
        | MountDecl.Proc => Except.ok [procMount root target]
        | MountDecl.Resource name version dir options =>
            match match_container name version containers with
            | none => Except.error BuildError.resourceNotFound
            | some dep =>
                (resourceMount fs root target cfg (Container.mk man.name man.version)
                    dep dir options).map
                  (fun p => [p.1, p.2])
        | MountDecl.Tmpfs size => Except.ok [tmpfsMount root target size]
        | MountDecl.Dev => Except.ok []
      let tl ← prepareMountsList fs cfg root man containers rest
      Except.ok (hd ++ tl)

/-- Embedding of `prepare_mounts` (builder.rs lines 89-136), with the
host filesystem existence oracle `fs` made an explicit argument — the
source consults it via `host.exists()` (bind) and `src.exists()`
(resource). -/
def prepare_mounts (fs : String → Bool) (cfg : Config) (root : String)
    (man : BuilderManifest) (containers : List Container) :
    Except BuildError (List Mount) :=
  prepareMountsList fs cfg root man containers man.mounts

/-- Agreement of two filesystem existence oracles on every path the
planner consults for the given mount entries: the host path of each
`Bind` entry and the computed source path of each `Resource` entry. -/
def fsAgrees (f g : String → Bool) (cfg : Config) (containers : List Container) :
    List (String × MountDecl) → Prop
  | [] => True
  | (_, decl) :: rest =>
      (match decl with
       | MountDecl.Bind host _ => f host = g host
       | MountDecl.Resource name version dir _ =>
           ∀ dep, match_container name version containers = some dep →
             f (resourceSrcPath cfg dep dir) = g (resourceSrcPath cfg dep dir)
       | _ => True)
      ∧ fsAgrees f g cfg containers rest

/-! Theorems. -/

/-- Looking up the key just inserted yields the inserted value
(`HashMap::insert` followed by lookup). -/
theorem lookupAL_insertAL_self {α β : Type} [DecidableEq α] (k : α) (v : β) :
    ∀ l : List (α × β), lookupAL (insertAL k v l) k = some v := by
  intro l
  induction l with
  | nil => simp [insertAL, lookupAL]
  | cons hd t ih =>
      obtain ⟨a, b⟩ := hd
      by_cases hak : a = k
      · subst hak
        simp [insertAL, lookupAL]
      · simp [insertAL, lookupAL, hak, ih]

/-- Claim C1, counterexample: calling `Repository::add` on an empty
repository directory with a source whose parse-and-verify fails returns
the `Npk` error, yet the copied file `repo/hello-1.0.0.npk` is still
present — the directory is not left as it was before the call, contrary
to the claim that the copied file is removed before the error is
returned. -/
theorem add_parse_failure_cx :
    (Repository.add (fun _ => none) [] (Repository.mk "mem" "repo" [])
        (Container.mk "hello" "1.0.0") 42).2.2
      = Except.error (RepoError.npk "repo/hello-1.0.0.npk")
    ∧ (Repository.add (fun _ => none) [] (Repository.mk "mem" "repo" [])
        (Container.mk "hello" "1.0.0") 42).1
      = [("repo/hello-1.0.0.npk", 42)]
    ∧ [(("repo/hello-1.0.0.npk" : String), (42 : Nat))] ≠ ([] : FileSystem) := by
  refine ⟨rfl, rfl, by decide⟩

/-- Claim C1, amended: when the copy succeeds (the destination is fresh)
and the subsequent parse-and-verify of the copied package fails,
`Repository::add` surfaces the `Npk` error but the copied file
`dir/\x7bname\x7d-\x7bversion\x7d.npk` remains in the repository directory; the
containers map is unchanged. -/
theorem add_parse_failure_keeps_copied_file (parse : Nat → Option Container)
    (fs : FileSystem) (repo : Repository) (container : Container) (src : Nat)
    (hdest : lookupAL fs (addDest repo.dir container) = none)
    (hparse : parse src = none) :
    (Repository.add parse fs repo container src).2.2
      = Except.error (RepoError.npk (addDest repo.dir container))
    ∧ lookupAL (Repository.add parse fs repo container src).1
        (addDest repo.dir container) = some src
    ∧ (Repository.add parse fs repo container src).2.1 = repo := by
  unfold Repository.add
  simp [hdest, hparse, lookupAL_insertAL_self]

/-- Claim C1 witness: the amended statement at a concrete input. -/
theorem add_parse_failure_keeps_copied_file_witness :
    (Repository.add (fun _ => none) [("other.npk", 9)]
        (Repository.mk "mem" "repo" []) (Container.mk "hello" "1.0.0") 42).2.2
      = Except.error (RepoError.npk (addDest "repo" (Container.mk "hello" "1.0.0")))
    ∧ lookupAL (Repository.add (fun _ => none) [("other.npk", 9)]
        (Repository.mk "mem" "repo" []) (Container.mk "hello" "1.0.0") 42).1
        (addDest "repo" (Container.mk "hello" "1.0.0")) = some 42
    ∧ (Repository.add (fun _ => none) [("other.npk", 9)]
        (Repository.mk "mem" "repo" []) (Container.mk "hello" "1.0.0") 42).2.1
      = Repository.mk "mem" "repo" [] :=
  add_parse_failure_keeps_copied_file (fun _ => none) [("other.npk", 9)]
    (Repository.mk "mem" "repo" []) (Container.mk "hello" "1.0.0") 42
    (by decide) rfl

/-- Claim C2, counterexample: two scan results with the same identity,
scanned in sorted filename order (`a.npk` then `b.npk`): the containers
map holds the entry of the later-scanned file `b.npk`, not the
lexicographically first `a.npk` — the later-scanned package wins rather
than loses. -/
theorem repositoryScan_duplicate_cx :
    lookupAL (repositoryScan
        [Except.ok (Container.mk "hello" "1.0.0", "a.npk", 1),
         Except.ok (Container.mk "hello" "1.0.0", "b.npk", 2)])
      (Container.mk "hello" "1.0.0") = some ("b.npk", 2)
    ∧ some (("b.npk", 2) : String × Nat) ≠ some (("a.npk", 1) : String × Nat) := by
  refine ⟨rfl, by decide⟩

/-- Claim C2, amended: when several package files decode to the same
container identity, the later-scanned file wins — `HashMap::insert`
replaces the earlier entry, nothing is logged about the collision, and
the outcome is determined by the directory-iteration order of the scan
(no sorting by filename is performed): the containers map holds the
package of the last scan result with that identity. -/
theorem repositoryScan_later_wins (pre : List ScanResult) (c : Container)
    (p : String) (n : Nat) :
    lookupAL (repositoryScan (pre ++ [Except.ok (c, p, n)])) c = some (p, n) := by
  unfold repositoryScan
  rw [List.foldl_append]
  simp [scanInsert, lookupAL_insertAL_self]

/-- Claim C5, counterexample: a repository whose containers map holds
`hello:1.0.0` backed by a file that is absent from the directory:
`Repository::remove` fails with the `Io` error, yet the containers map
has already lost the entry — a partial mutation remains, contrary to the
claim that a failing remove is a no-op. -/
theorem remove_partial_mutation_cx :
    (Repository.remove []
        (Repository.mk "mem" "repo"
          [(Container.mk "hello" "1.0.0", ("repo/hello-1.0.0.npk", 7))])
        (Container.mk "hello" "1.0.0")).2.2
      = Except.error (RepoError.ioError "Failed to remove npk")
    ∧ (Repository.remove []
        (Repository.mk "mem" "repo"
          [(Container.mk "hello" "1.0.0", ("repo/hello-1.0.0.npk", 7))])
        (Container.mk "hello" "1.0.0")).2.1.containers = []
    ∧ ([] : List (Container × (String × Nat)))
        ≠ [(Container.mk "hello" "1.0.0", ("repo/hello-1.0.0.npk", 7))] := by
  refine ⟨rfl, rfl, by decide⟩

/-- Claim C5, amended: `Repository::remove` on an absent identity fails
with `InvalidContainer` and leaves everything unchanged; but when the
identity is present and deleting the backing file fails, the error is
surfaced with the containers-map entry already removed — the map
mutation persists (the filesystem is unchanged). -/
theorem remove_invalid_or_mutates (fs : FileSystem) (repo : Repository)
    (c : Container) :
    (lookupAL repo.containers c = none →
      Repository.remove fs repo c
        = (fs, repo, Except.error (RepoError.invalidContainer c)))
    ∧ (∀ path npk, lookupAL repo.containers c = some (path, npk) →
        lookupAL fs path = none →
        (Repository.remove fs repo c).2.2
          = Except.error (RepoError.ioError "Failed to remove npk")
        ∧ (Repository.remove fs repo c).2.1.containers = eraseAL c repo.containers
        ∧ (Repository.remove fs repo c).1 = fs) := by
  constructor
  · intro h
    unfold Repository.remove
    rw [h]
  · intro path npk h hf
    unfold Repository.remove
    rw [h]
    simp [hf]

/-- Claim C5 witness: the amended statement at concrete inputs, one for
each branch. -/
theorem remove_invalid_or_mutates_witness :
    (Repository.remove [] (Repository.mk "mem" "repo" []) (Container.mk "x" "1.0.0")
      = ([], Repository.mk "mem" "repo" [],
          Except.error (RepoError.invalidContainer (Container.mk "x" "1.0.0"))))
    ∧ ((Repository.remove []
          (Repository.mk "mem" "repo"
            [(Container.mk "hello" "1.0.0", ("repo/hello-1.0.0.npk", 7))])
          (Container.mk "hello" "1.0.0")).2.2
        = Except.error (RepoError.ioError "Failed to remove npk")
      ∧ (Repository.remove []
          (Repository.mk "mem" "repo"
            [(Container.mk "hello" "1.0.0", ("repo/hello-1.0.0.npk", 7))])
          (Container.mk "hello" "1.0.0")).2.1.containers
        = eraseAL (Container.mk "hello" "1.0.0")
            [(Container.mk "hello" "1.0.0", ("repo/hello-1.0.0.npk", 7))]
      ∧ (Repository.remove []
          (Repository.mk "mem" "repo"
            [(Container.mk "hello" "1.0.0", ("repo/hello-1.0.0.npk", 7))])
          (Container.mk "hello" "1.0.0")).1 = []) :=
  ⟨(remove_invalid_or_mutates [] (Repository.mk "mem" "repo" [])
      (Container.mk "x" "1.0.0")).1 rfl,
    (remove_invalid_or_mutates []
      (Repository.mk "mem" "repo"
        [(Container.mk "hello" "1.0.0", ("repo/hello-1.0.0.npk", 7))])
      (Container.mk "hello" "1.0.0")).2 "repo/hello-1.0.0.npk" 7 (by decide) rfl⟩

/-- Claim C10: when `Repository::add` succeeds, the destination file is
named `\x7bname\x7d-\x7bversion\x7d.npk` from the `container` argument, while the new
containers-map entry is keyed by the identity read from the copied
package's own manifest; the two identities are never compared — the
theorem holds for every parsed identity `c2`, equal to the argument or
not. -/
theorem add_keys_by_manifest_identity (parse : Nat → Option Container)
    (fs : FileSystem) (repo : Repository) (container : Container) (src : Nat)
    (c2 : Container)
    (hdest : lookupAL fs (addDest repo.dir container) = none)
    (hparse : parse src = some c2) :
    (Repository.add parse fs repo container src).2.2 = Except.ok ()
    ∧ lookupAL (Repository.add parse fs repo container src).1
        (addDest repo.dir container) = some src
    ∧ lookupAL (Repository.add parse fs repo container src).2.1.containers c2
        = some (addDest repo.dir container, src) := by
  unfold Repository.add
  simp [hdest, hparse, lookupAL_insertAL_self]

/-- Claim C10 witness: a source whose embedded manifest identity
`bar:2.0.0` differs from the argument `foo:1.0.0`; the file is named
`repo/foo-1.0.0.npk` while the map key is `bar:2.0.0`. -/
theorem add_keys_by_manifest_identity_witness :
    ((Repository.add (fun _ => some (Container.mk "bar" "2.0.0")) []
        (Repository.mk "mem" "repo" []) (Container.mk "foo" "1.0.0") 42).2.2
      = Except.ok ()
    ∧ lookupAL (Repository.add (fun _ => some (Container.mk "bar" "2.0.0")) []
        (Repository.mk "mem" "repo" []) (Container.mk "foo" "1.0.0") 42).1
        (addDest "repo" (Container.mk "foo" "1.0.0")) = some 42
    ∧ lookupAL (Repository.add (fun _ => some (Container.mk "bar" "2.0.0")) []
        (Repository.mk "mem" "repo" []) (Container.mk "foo" "1.0.0") 42).2.1.containers
        (Container.mk "bar" "2.0.0")
      = some (addDest "repo" (Container.mk "foo" "1.0.0"), 42))
    ∧ Container.mk "bar" "2.0.0" ≠ Container.mk "foo" "1.0.0" :=
  ⟨add_keys_by_manifest_identity (fun _ => some (Container.mk "bar" "2.0.0")) []
      (Repository.mk "mem" "repo" []) (Container.mk "foo" "1.0.0") 42
      (Container.mk "bar" "2.0.0") (by decide) rfl,
    by decide⟩

/-- Claim C3, counterexample: the timeout within which an accepted
console connection must send its `Connect` frame is the hardcoded
`Some(10 s)` argument `serve` passes to `Console::connection` — 10
seconds, not 5 — and when no timeout is passed the fallback is
`u64::MAX` seconds, not 5 seconds. -/
theorem handshake_timeout_cx :
    connectionHandshakeTimeout serveConnectionTimeoutArg = 10
    ∧ connectionHandshakeTimeout serveConnectionTimeoutArg ≠ 5
    ∧ connectionHandshakeTimeout none ≠ 5 := by
  refine ⟨rfl, by decide, by decide⟩

/-- Claim C3, amended: the handshake timeout of `Console::connection` is
its `timeout` argument when given and `u64::MAX` seconds (effectively
unbounded) otherwise; `serve` passes the hardcoded constant 10 seconds
for every accepted connection — no `Configuration` field controls it.
The configurable 5-second default belongs to the npk install stream
chunk timeout (`npk_stream_timeout`, default
`DEFAULT_NPK_STREAM_TIMEOUT = 5`). -/
theorem handshake_timeout_amended (t : Nat) (cfg : Configuration)
    (h : cfg.npk_stream_timeout = none) :
    connectionHandshakeTimeout (some t) = t
    ∧ connectionHandshakeTimeout none = u64Max
    ∧ serveConnectionTimeoutArg = some 10
    ∧ npkStreamTimeout cfg = DEFAULT_NPK_STREAM_TIMEOUT
    ∧ DEFAULT_NPK_STREAM_TIMEOUT = 5 := by
  refine ⟨rfl, rfl, rfl, ?_, rfl⟩
  simp [npkStreamTimeout, h]

/-- Claim C3 witness: the amended statement at a concrete timeout and
configuration. -/
theorem handshake_timeout_amended_witness :
    connectionHandshakeTimeout (some 7) = 7
    ∧ connectionHandshakeTimeout none = u64Max
    ∧ serveConnectionTimeoutArg = some 10
    ∧ npkStreamTimeout (Configuration.mk [] none none none none)
        = DEFAULT_NPK_STREAM_TIMEOUT
    ∧ DEFAULT_NPK_STREAM_TIMEOUT = 5 :=
  handshake_timeout_amended 7 (Configuration.mk [] none none none none) rfl

/-- Claim C6: the framing codec can prefetch more bytes into the read
buffer than the declared install size — nothing in the connection setup
bounds the prefetch by `size` (the codec is configured only with
`max_request_size`) — and then
`assert!(read_buffer.len() as u64 <= size)` fails.  Concrete failing
input: an `Install` request with `size = 0` and a single already
prefetched byte (a client pipelining its next frame in the same burst);
the size check passes and the prefetch handling reaches the assertion
violation. -/
theorem install_prefetch_assert_fails :
    installStream (Configuration.mk [Permission.install] none none none none) 0 [0]
      = Except.error InstallStreamError.assertionViolation
    ∧ installHandlePrefetch [0] 0
      = Except.error InstallStreamError.assertionViolation := by
  refine ⟨rfl, rfl⟩

/-- Claim C7: for every inbound request whose required permission is not
held, `process_request` replies with
`Response::Error(PermissionDenied\x7bheld, required\x7d)` — carrying the held
permission set and the one required permission — and sends no event to
the event loop. -/
theorem permission_denied_no_event (cfg : Configuration) (req : Request)
    (h : requiredPermission req ∉ cfg.permissions) :
    processRequest cfg req
      = (ProcessOutcome.permissionDenied cfg.permissions (requiredPermission req),
          ([] : List Request)) := by
  unfold processRequest
  rw [if_neg h]

/-- Claim C7 witness: a `Shutdown` request on a connection holding only
the `Containers` permission. -/
theorem permission_denied_no_event_witness :
    processRequest
        (Configuration.mk [Permission.containers] none none none none)
        Request.shutdown
      = (ProcessOutcome.permissionDenied [Permission.containers]
          (requiredPermission Request.shutdown), ([] : List Request)) :=
  permission_denied_no_event
    (Configuration.mk [Permission.containers] none none none none)
    Request.shutdown (by decide)

/-- Claim C8, counterexample: a manifest document whose `on_exit`
restart value is 0 loads successfully through the `FromStr` loading path
(`Manifest::from_str` performs no on-exit validation), contrary to the
claim that every load of such a document fails. -/
theorem from_str_accepts_restart_zero_cx :
    (NCManifest.mk "hello" "0.0.0" "aarch64-linux-android" "/binary"
        none none none (some (OnExit.restart 0)) none).on_exit
      = some (OnExit.restart 0)
    ∧ manifestFromStrCheck
        (NCManifest.mk "hello" "0.0.0" "aarch64-linux-android" "/binary"
          none none none (some (OnExit.restart 0)) none)
      = Except.ok
          (NCManifest.mk "hello" "0.0.0" "aarch64-linux-android" "/binary"
            none none none (some (OnExit.restart 0)) none) := by
  refine ⟨rfl, rfl⟩

/-- Claim C8, amended: a manifest with `on_exit.restart = 0` is rejected
by `Manifest::from_path`, which validates the decoded manifest; the
`FromStr` implementation (`Manifest::from_str`) performs no such
validation and accepts the same manifest. -/
theorem restart_zero_from_path_rejected (m : NCManifest)
    (h : m.on_exit = some (OnExit.restart 0)) :
    manifestFromPathCheck m = Except.error "Invalid on_exit value"
    ∧ manifestFromStrCheck m = Except.ok m := by
  constructor
  · unfold manifestFromPathCheck
    rw [h]
  · rfl

/-- Claim C8 witness: the amended statement at a concrete manifest. -/
theorem restart_zero_from_path_rejected_witness :
    manifestFromPathCheck
        (NCManifest.mk "hello" "0.0.0" "aarch64-linux-android" "/binary"
          (some ["one", "two"]) none none (some (OnExit.restart 0)) none)
      = Except.error "Invalid on_exit value"
    ∧ manifestFromStrCheck
        (NCManifest.mk "hello" "0.0.0" "aarch64-linux-android" "/binary"
          (some ["one", "two"]) none none (some (OnExit.restart 0)) none)
      = Except.ok
          (NCManifest.mk "hello" "0.0.0" "aarch64-linux-android" "/binary"
            (some ["one", "two"]) none none (some (OnExit.restart 0)) none) :=
  restart_zero_from_path_rejected
    (NCManifest.mk "hello" "0.0.0" "aarch64-linux-android" "/binary"
      (some ["one", "two"]) none none (some (OnExit.restart 0)) none) rfl

/-- Claim C4, counterexample: two runs of the mount planner with
identical global config, manifest and installed-container iterator, but
different host filesystem states (the bind host `/host/etc` absent in
one and present in the other), produce different mount lists — the
planner consults `host.exists()` and therefore is not a pure function of
those three inputs alone. -/
theorem prepare_mounts_fs_dependent_cx :
    prepare_mounts (fun _ => false) (Config.mk "/run/ns" "/data")
        "/run/ns/app:0.1.0"
        (BuilderManifest.mk "app" "0.1.0" 1000 1000
          [("/etc", MountDecl.Bind "/host/etc" [])]) []
      = Except.ok []
    ∧ prepare_mounts (fun _ => true) (Config.mk "/run/ns" "/data")
        "/run/ns/app:0.1.0"
        (BuilderManifest.mk "app" "0.1.0" 1000 1000
          [("/etc", MountDecl.Bind "/host/etc" [])]) []
      = Except.ok
          [Mount.mk (some "/host/etc") "/run/ns/app:0.1.0/etc" none msBind none,
           Mount.mk (some "/host/etc") "/run/ns/app:0.1.0/etc" none
             ((msBind.union msRemount).union msRdonly) none]
    ∧ [Mount.mk (some "/host/etc") "/run/ns/app:0.1.0/etc" none msBind none,
        Mount.mk (some "/host/etc") "/run/ns/app:0.1.0/etc" none
          ((msBind.union msRemount).union msRdonly) none]
        ≠ ([] : List Mount) := by
  refine ⟨rfl, rfl, by decide⟩

/-- Congruence of the planner recursion in the filesystem oracle: two
oracles that agree on every path consulted for the given entries yield
the same plan. -/
theorem prepareMountsList_congr (f g : String → Bool) (cfg : Config)
    (root : String) (man : BuilderManifest) (containers : List Container) :
    ∀ ms : List (String × MountDecl), fsAgrees f g cfg containers ms →
      prepareMountsList f cfg root man containers ms
        = prepareMountsList g cfg root man containers ms := by
  intro ms
  induction ms with
  | nil => intro _; rfl
  | cons e rest ih =>
      obtain ⟨target, decl⟩ := e
      cases decl with
      | Bind host options =>
          intro h
          obtain ⟨h1, h2⟩ := h
          have hb : bindMount f root target host options
              = bindMount g root target host options := by
            unfold bindMount
            rw [h1]
          simp only [prepareMountsList, hb, ih h2]
      | Persist =>
          intro h
          simp only [prepareMountsList, ih h.2]
      | Proc =>
          intro h
          simp only [prepareMountsList, ih h.2]
      | Resource name version dir options =>
          intro h
          obtain ⟨h1, h2⟩ := h
          simp only [prepareMountsList]
          cases hm : match_container name version containers with
          | none => rfl
          | some dep =>
              have hr : resourceMount f root target cfg
                    (Container.mk man.name man.version) dep dir options
                  = resourceMount g root target cfg
                    (Container.mk man.name man.version) dep dir options := by
                simp only [resourceMount]
                rw [h1 dep hm]
              simp only [hm, hr, ih h2]
      | Tmpfs size =>
          intro h
          simp only [prepareMountsList, ih h.2]
      | Dev =>
          intro h
          simp only [prepareMountsList, ih h.2]

/-- Claim C4, amended: the mount planner is a pure function of its
inputs together with the host filesystem existence state it consults —
for any two runs with identical global config, manifest and installed
containers whose filesystem oracles agree on the bind host paths and
resource source paths referenced by the manifest, the produced ordered
mount list is identical; targets are iterated in the manifest's declared
order. -/
theorem prepare_mounts_pure (f g : String → Bool) (cfg : Config) (root : String)
    (man : BuilderManifest) (containers : List Container)
    (h : fsAgrees f g cfg containers man.mounts) :
    prepare_mounts f cfg root man containers
      = prepare_mounts g cfg root man containers :=
  prepareMountsList_congr f g cfg root man containers man.mounts h

/-- Claim C4 witness: two distinct oracles (they differ on `/other`)
that agree on the one consulted path `/host/etc` give the same plan. -/
theorem prepare_mounts_pure_witness :
    prepare_mounts (fun _ => true) (Config.mk "/run/ns" "/data")
        "/run/ns/app:0.1.0"
        (BuilderManifest.mk "app" "0.1.0" 1000 1000
          [("/etc", MountDecl.Bind "/host/etc" [])]) []
      = prepare_mounts (fun p => decide (p = "/host/etc")) (Config.mk "/run/ns" "/data")
        "/run/ns/app:0.1.0"
        (BuilderManifest.mk "app" "0.1.0" 1000 1000
          [("/etc", MountDecl.Bind "/host/etc" [])]) [] :=
  prepare_mounts_pure (fun _ => true) (fun p => decide (p = "/host/etc"))
    (Config.mk "/run/ns" "/data") "/run/ns/app:0.1.0"
    (BuilderManifest.mk "app" "0.1.0" 1000 1000
      [("/etc", MountDecl.Bind "/host/etc" [])]) []
    ⟨by decide, trivial⟩

/-- Claim C9: for every `Bind` mount entry whose host path exists and
whose options do not contain `Rw`, the planner emits exactly two
records: first a bind mount whose flags are the translation of the
options plus `MS_BIND`, then a remount record with identical source and
target additionally carrying `MS_REMOUNT` and `MS_RDONLY`; with empty
options the two flag sets are exactly `MS_BIND` and
`MS_BIND | MS_REMOUNT | MS_RDONLY`. -/
theorem bind_ro_emits_pair (fs : String → Bool) (root target host : String)
    (options : List MountOption) (hhost : fs host = true)
    (hrw : MountOption.Rw ∉ options) :
    bindMount fs root target host options
      = [Mount.mk (some host) (joinStrip root target) none
           ((options_to_flags options).union msBind) none,
         Mount.mk (some host) (joinStrip root target) none
           ((((options_to_flags options).union msBind).union msRemount).union
             msRdonly) none]
    ∧ (options_to_flags []).union msBind = msBind
    ∧ (((options_to_flags []).union msBind).union msRemount).union msRdonly
        = (msBind.union msRemount).union msRdonly := by
  refine ⟨?_, by decide, by decide⟩
  simp [bindMount, hhost, hrw]

/-- Claim C9 witness: the bind entry `/etc: Bind\x7bhost=/host/etc,
options=[]\x7d` with an existing host path. -/
theorem bind_ro_emits_pair_witness :
    bindMount (fun _ => true) "/run/ns/app:0.1.0" "/etc" "/host/etc" []
      = [Mount.mk (some "/host/etc") (joinStrip "/run/ns/app:0.1.0" "/etc") none
           ((options_to_flags []).union msBind) none,
         Mount.mk (some "/host/etc") (joinStrip "/run/ns/app:0.1.0" "/etc") none
           ((((options_to_flags []).union msBind).union msRemount).union
             msRdonly) none]
    ∧ (options_to_flags []).union msBind = msBind
    ∧ (((options_to_flags []).union msBind).union msRemount).union msRdonly
        = (msBind.union msRemount).union msRdonly :=
  bind_ro_emits_pair (fun _ => true) "/run/ns/app:0.1.0" "/etc" "/host/etc" []
    rfl (by decide)

end Northstar
